import Mathlib

/-!
Verification of the bluebox-sdk window-property monitor, UI-element locator
builder and event broadcaster, as a shallow embedding of the Python sources
`web_hacker/cdp/window_property_monitor.py`,
`web_hacker/data_models/ui_elements.py` and
`web_hacker/cdp/async_cdp/event_broadcaster.py`.
-/

/-! ## Scalar values stored in the flat window-property snapshot

`_collect_window_properties` and `_fully_resolve_object_flat` only record
primitive values (`string`, `number`, `boolean`) and `None`; `JsVal` models
exactly those Python values. -/

inductive JsVal where
  | str (s : String)
  | num (n : Int)
  | boolean (b : Bool)
  | null
deriving DecidableEq, Repr

/-- One entry of `WindowProperty.values`: the `WindowPropertyValue` pydantic
model `(timestamp, value, url)` constructed in `_collect_window_properties`.
The data model module is absent from the sources; its shape is taken from its
construction sites (`WindowPropertyValue(timestamp=..., value=..., url=...)`). -/
structure WPEntry where
  timestamp : Nat
  value : JsVal
  url : String
deriving DecidableEq, Repr

/-- The mutable state of `WindowPropertyMonitor` that the history update in
`_collect_window_properties` touches: `history_db` (a path is absent iff its
entry list is `[]`; in the Python code a present `WindowProperty.values` list
is never empty) and `last_seen_keys`. -/
structure WPState where
  history_db : String → List WPEntry
  last_seen_keys : List String

/-- The initial state from `WindowPropertyMonitor.__init__`:
`history_db = {}`, `last_seen_keys = set()`. -/
def wpInit : WPState := ⟨fun _ => [], []⟩

/-- History update for one key present in the fresh snapshot
(`_collect_window_properties`, first loop): a new key starts a singleton
history; an existing key appends `(ts, v, url)` only when the value differs
from the tail `values[-1]`. -/
def stepValues (vals : List WPEntry) (v : JsVal) (ts : Nat) (url : String) :
    List WPEntry :=
  match vals.getLast? with
  | none => [⟨ts, v, url⟩]
  | some last => if last.value = v then vals else vals ++ [⟨ts, v, url⟩]

/-- Tombstone update for one deleted key (`_collect_window_properties`, second
loop body): append `(ts, None, url)` only when the key is present in
`history_db` and its tail value is not already `None`. -/
def tombValues (vals : List WPEntry) (ts : Nat) (url : String) :
    List WPEntry :=
  match vals.getLast? with
  | none => vals
  | some last =>
      if last.value = JsVal.null then vals else vals ++ [⟨ts, JsVal.null, url⟩]

/-- First loop of the history update: fold the flat snapshot
(`for key, value in flat_dict.items()`) over `history_db`. -/
def applySnapshot (hdb : String → List WPEntry)
    (snap : List (String × JsVal)) (ts : Nat) (url : String) :
    String → List WPEntry :=
  snap.foldl
    (fun h kv => fun p => if p = kv.1 then stepValues (h kv.1) kv.2 ts url else h p)
    hdb

/-- Second loop of the history update: fold `last_seen_keys`
(`for key in self.last_seen_keys`) over `history_db`, appending tombstones for
keys absent from `current_keys`. -/
def applyTombstones (hdb : String → List WPEntry) (lastSeen : List String)
    (currentKeys : List String) (ts : Nat) (url : String) :
    String → List WPEntry :=
  lastSeen.foldl
    (fun h k =>
      if k ∈ currentKeys then h
      else fun p => if p = k then tombValues (h k) ts url else h p)
    hdb

/-- History update of one collection cycle
(`_collect_window_properties`, lines 421-473): apply the snapshot loop, then
the deletion loop, then replace `last_seen_keys` with the key set of the snapshot. -/
def collectStep (st : WPState) (snap : List (String × JsVal)) (ts : Nat)
    (url : String) : WPState :=
  let currentKeys := snap.map Prod.fst
  { history_db := applyTombstones (applySnapshot st.history_db snap ts url)
      st.last_seen_keys currentKeys ts url
    last_seen_keys := currentKeys }

/-- States reachable from the freshly constructed monitor by any sequence of
collection cycles.  A snapshot is a Python dict, so its keys are distinct. -/
inductive WPReachable : WPState → Prop where
  | init : WPReachable wpInit
  | step (st : WPState) (snap : List (String × JsVal)) (ts : Nat) (url : String)
      (hkeys : (snap.map Prod.fst).Nodup) (h : WPReachable st) :
      WPReachable (collectStep st snap ts url)

/-! ## Monitor scheduling state machine

The flags of `WindowPropertyMonitor` manipulated by
`handle_window_property_message`, `check_and_collect`,
`_trigger_collection_thread`, `force_collect` and the `finally` block of
`_collect_window_properties`.  A live collection thread is modelled by the
boolean `collectionAlive` (`self.collection_thread and
self.collection_thread.is_alive()`); starting the thread sets it. -/

structure MonState where
  page_ready : Bool
  navigation_detected : Bool
  collectionAlive : Bool
  pending_navigation : Bool
  abort_collection : Bool
  last_collection_time : Nat
  collection_interval : Nat
deriving DecidableEq, Repr

/-- State after `WindowPropertyMonitor.__init__`: all flags false, interval 10 s. -/
def initMonState : MonState :=
  { page_ready := false
    navigation_detected := false
    collectionAlive := false
    pending_navigation := false
    abort_collection := false
    last_collection_time := 0
    collection_interval := 10 }

/-- The CDP events `handle_window_property_message` inspects. -/
inductive CdpEvent where
  | executionContextsCleared
  | frameNavigated
  | domContentEventFired
  | loadEventFired
  | other (method : String)
deriving DecidableEq, Repr

/-- Embedding of `_trigger_collection_thread`: returns without change when a collection
thread is alive, otherwise starts one.  The second component records whether a
new collection was started. -/
def triggerCollection (st : MonState) : MonState × Bool :=
  if st.collectionAlive then (st, false)
  else ({ st with collectionAlive := true }, true)

/-- Result of `handle_window_property_message`: the updated state, whether the
message was handled (the `return True` / `return False` value), and whether a
new collection thread was started. -/
structure HandleResult where
  state : MonState
  handled : Bool
  triggered : Bool
deriving DecidableEq, Repr

/-- Embedding of `handle_window_property_message` (lines 98-153). -/
def handleMessage (st : MonState) (ev : CdpEvent) : HandleResult :=
  match ev with
  | CdpEvent.executionContextsCleared =>
      let st1 := { st with page_ready := false, navigation_detected := true }
      let st2 :=
        if st1.collectionAlive then
          { st1 with abort_collection := true, pending_navigation := true }
        else st1
      ⟨st2, true, false⟩
  | CdpEvent.frameNavigated =>
      let st1 := { st with navigation_detected := true, page_ready := true }
      if st1.collectionAlive then
        ⟨{ st1 with pending_navigation := true }, true, false⟩
      else
        let tr := triggerCollection st1
        ⟨tr.1, true, tr.2⟩
  | CdpEvent.domContentEventFired =>
      let st1 := { st with page_ready := true, navigation_detected := true }
      if st1.collectionAlive then
        ⟨{ st1 with pending_navigation := true }, true, false⟩
      else
        let tr := triggerCollection st1
        ⟨tr.1, true, tr.2⟩
  | CdpEvent.loadEventFired =>
      let st1 := { st with page_ready := true, navigation_detected := true }
      if st1.collectionAlive then
        ⟨{ st1 with pending_navigation := true }, true, false⟩
      else
        let tr := triggerCollection st1
        ⟨tr.1, true, tr.2⟩
  | CdpEvent.other _ => ⟨st, false, false⟩

/-- Embedding of `check_and_collect` (lines 511-532): the periodic path.  Returns the new
state and whether a collection was triggered. -/
def checkAndCollect (st : MonState) (now : Nat) : MonState × Bool :=
  if st.page_ready = false then (st, false)
  else if st.collectionAlive then (st, false)
  else if st.navigation_detected ∨ st.collection_interval ≤ now - st.last_collection_time then
    triggerCollection { st with navigation_detected := false, last_collection_time := now }
  else (st, false)

/-- Embedding of `force_collect`: just `_trigger_collection_thread`. -/
def forceCollect (st : MonState) : MonState × Bool :=
  triggerCollection st

/-- The `finally` block of `_collect_window_properties` (lines 480-496): clear
the abort flag, drop the thread reference, and when a navigation is pending,
clear it, mark navigation detected and trigger a fresh collection (after a
0.5 s settling delay, not modelled as time).  The second component records
whether a fresh collection was started. -/
def collectionFinish (st : MonState) : MonState × Bool :=
  let st1 := { st with abort_collection := false, collectionAlive := false }
  if st1.pending_navigation then
    triggerCollection { st1 with pending_navigation := false, navigation_detected := true }
  else (st1, false)

/-! ## Native vs application classification (`_is_application_object`) -/

/-- Python `str.startswith`, modelled on the character lists. -/
def pyStartsWith (s p : String) : Bool :=
  List.isPrefixOf p.data s.data

/-- The module-level `NATIVE_PREFIXES` list (lines 20-35). -/
def NATIVE_PREFIXES : List String :=
  ["HTML", "SVG", "MathML", "RTC", "IDB", "Media", "Audio", "Video",
   "WebGL", "Canvas", "Crypto", "File", "Blob", "Form", "Input",
   "Mutation", "Intersection", "Resize", "Performance", "Navigation",
   "Storage", "Location", "History", "Navigator", "Screen", "Window",
   "Document", "Element", "Node", "Event", "Promise", "Array",
   "String", "Number", "Boolean", "Date", "RegExp", "Error", "Function",
   "Map", "Set", "WeakMap", "WeakSet", "Proxy", "Reflect", "Symbol",
   "Intl", "JSON", "Math", "Console", "TextEncoder", "TextDecoder",
   "ReadableStream", "WritableStream", "TransformStream", "AbortController",
   "URL", "URLSearchParams", "Headers", "Request", "Response", "Fetch",
   "Worker", "SharedWorker", "ServiceWorker", "BroadcastChannel",
   "MessageChannel", "MessagePort", "ImageData", "ImageBitmap",
   "OffscreenCanvas", "Path2D", "CanvasGradient", "CanvasPattern",
   "Geolocation", "Notification", "PushManager", "Cache", "IndexedDB"]

/-- The tuple of name prefixes checked at line 167 of
`window_property_monitor.py`. -/
def nameNativeStarts : List String :=
  ["HTML", "SVG", "RTC", "IDB", "WebGL", "Media", "Audio", "Video"]

/-- The `native_globals` list local to `_is_application_object`
(lines 171-182). -/
def native_globals : List String :=
  ["window", "self", "top", "parent", "frames", "document", "navigator",
   "location", "history", "screen", "console", "localStorage", "sessionStorage",
   "indexedDB", "caches", "performance", "fetch", "XMLHttpRequest", "WebSocket",
   "Blob", "File", "FileReader", "FormData", "URL", "URLSearchParams",
   "Headers", "Request", "Response", "AbortController", "Event", "CustomEvent",
   "Promise", "Map", "Set", "WeakMap", "WeakSet", "Proxy", "Reflect",
   "Symbol", "Intl", "JSON", "Math", "Date", "RegExp", "Error", "Array",
   "String", "Number", "Boolean", "Object", "Function", "ArrayBuffer",
   "DataView", "Int8Array", "Uint8Array", "Int16Array", "Uint16Array",
   "Int32Array", "Uint32Array", "Float32Array", "Float64Array"]

/-- Embedding of `_is_application_object(className, name)` (lines 155-190).  Python string
truthiness: an empty string is falsy. -/
def isApplicationObject (className name : String) : Bool :=
  if name = "" then false
  else if className ≠ "" ∧ NATIVE_PREFIXES.any (fun p => pyStartsWith className p) then
    false
  else if nameNativeStarts.any (fun p => pyStartsWith name p) then false
  else if name ∈ native_globals then false
  else if className = "Object" ∨ className = "" then true
  else true

/-! ## The recursive flat property walk (`_fully_resolve_object_flat`)

The CDP backend is modelled as a total map `g` from an `objectId` (a `Nat`)
to the property list `Runtime.getProperties(objectId, ownProperties=true)`
returns for it; cyclic object graphs are maps whose property descriptors point
back at earlier object ids.  The walk is defined with an explicit `fuel`
argument that decreases at every recursive descent; running out of fuel
returns `none`, so `isSome` of the result expresses that the Python recursion
terminates within that recursion depth. -/

/-- One CDP property descriptor as consumed by the walker: `prop["name"]`,
`value.type`, `value.className`, `value.subtype == "null"`, `value.objectId`
and the primitive `value.value`. -/
structure JsPropDesc where
  name : String
  ptype : String
  className : String
  subtypeNull : Bool
  objectId : Option Nat
  pvalue : JsVal
deriving DecidableEq, Repr

/-- The dot-path construction `f"{base_path}.{name}" if base_path else name`. -/
def joinPath (base name : String) : String :=
  if base = "" then name else base ++ "." ++ name

/-- Python dict assignment `flat_dict[path] = v` on the flat snapshot. -/
def setFlat (flat : List (String × JsVal)) (k : String) (v : JsVal) :
    List (String × JsVal) :=
  if flat.any (fun kv => kv.1 = k) then
    flat.map (fun kv => if kv.1 = k then (k, v) else kv)
  else flat ++ [(k, v)]

/-- The `for prop in props_list` loop body of `_fully_resolve_object_flat`
(lines 219-250), abstracted over the recursive descent `resolveChild nid path
flat` used for nested application objects.  `abort` is the (pure) abort flag
checked at the top of each iteration. -/
def walkProps (resolveChild : Nat → String → List (String × JsVal) → Option (List (String × JsVal)))
    (abort : Bool) (depth : Nat) (base : String) :
    List JsPropDesc → List (String × JsVal) → Option (List (String × JsVal))
  | [], flat => some flat
  | p :: rest, flat =>
    if abort then some flat
    else
      let isAppObj := isApplicationObject p.className p.name
      if 0 < depth ∧ isAppObj = false then
        walkProps resolveChild abort depth base rest flat
      else
        let propPath := joinPath base p.name
        if p.ptype = "string" ∨ p.ptype = "number" ∨ p.ptype = "boolean" then
          walkProps resolveChild abort depth base rest (setFlat flat propPath p.pvalue)
        else if p.ptype = "object" then
          if p.subtypeNull then
            walkProps resolveChild abort depth base rest (setFlat flat propPath JsVal.null)
          else
            match p.objectId with
            | some nid =>
                if isAppObj then
                  match resolveChild nid propPath flat with
                  | none => none
                  | some flat2 => walkProps resolveChild abort depth base rest flat2
                else walkProps resolveChild abort depth base rest flat
            | none => walkProps resolveChild abort depth base rest flat
        else if p.ptype = "function" then
          walkProps resolveChild abort depth base rest flat
        else
          walkProps resolveChild abort depth base rest (setFlat flat propPath p.pvalue)

/-- Embedding of `_fully_resolve_object_flat(cdp_session, object_id, base_path, flat_dict,
visited, depth, max_depth)` (lines 192-246).  The recursive descent passes
`depth + 1` and the extended visited set (`visited.copy()` with `object_id`
added), exactly as the Python call at line 246 does. -/
def resolveFlat (g : Nat → List JsPropDesc) (abort : Bool) :
    Nat → Nat → String → List (String × JsVal) → List Nat → Nat → Nat →
    Option (List (String × JsVal))
  | 0, _, _, _, _, _, _ => none
  | fuel + 1, objectId, basePath, flat, visited, depth, maxDepth =>
    if abort then some flat
    else if maxDepth < depth ∨ objectId ∈ visited then some flat
    else
      walkProps
        (fun nid path f =>
          resolveFlat g abort fuel nid path f (objectId :: visited) (depth + 1) maxDepth)
        abort depth basePath (g objectId) flat

/-! ## UI element locators (`data_models/ui_elements.py`) -/

/-- The `IdentifierType` StrEnum. -/
inductive IdentifierType where
  | css
  | xpath
  | text
  | role
  | name
  | id
deriving DecidableEq, Repr

/-- The dict `DEFAULT_IDENTIFIER_PRIORITIES` (lines 26-33), as the key/value pairs of
the Python dict. -/
def DEFAULT_IDENTIFIER_PRIORITIES : List (IdentifierType × Int) :=
  [(IdentifierType.id, 10), (IdentifierType.name, 20), (IdentifierType.css, 30),
   (IdentifierType.role, 40), (IdentifierType.text, 50), (IdentifierType.xpath, 80)]

/-- Python `DEFAULT_IDENTIFIER_PRIORITIES.get(t, default)`. -/
def priorityGet (t : IdentifierType) (default : Int) : Int :=
  match DEFAULT_IDENTIFIER_PRIORITIES.find? (fun kv => kv.1 = t) with
  | some kv => kv.2
  | none => default

/-- Python `DEFAULT_IDENTIFIER_PRIORITIES[t]` (all six keys are present, so plain
indexing never raises). -/
def priorityOf (t : IdentifierType) : Int :=
  priorityGet t 100

/-- The `Identifier` pydantic model. -/
structure Identifier where
  type : IdentifierType
  value : String
  priority : Option Int
  description : Option String
deriving DecidableEq, Repr

/-- Embedding of `Identifier.get_priority` (lines 56-60). -/
def Identifier.get_priority (i : Identifier) : Int :=
  match i.priority with
  | some p => p
  | none => priorityGet i.type 100

/-- Python truthiness of an optional string field (`None` and `""` are falsy). -/
def truthyS : Option String → Bool
  | none => false
  | some s => !(s = "")

/-- Python `str.strip()` (trim surrounding whitespace). -/
def pyStrip (s : String) : String :=
  String.mk (((s.data.dropWhile Char.isWhitespace).reverse.dropWhile
    Char.isWhitespace).reverse)

/-- Python `str.lower()` restricted to ASCII, as used on HTML tag names. -/
def pyLower (s : String) : String :=
  String.mk (s.data.map Char.toLower)

/-- Python `str.isalnum()`: non-empty and every character alphanumeric. -/
def pyIsAlnum (s : String) : Bool :=
  !(s.data.isEmpty) && s.data.all Char.isAlphanum

/-- The `UiElement` pydantic model (lines 70-123).  `bounding_box` (four
floats) plays no part in locator construction and is omitted from the
embedding; every field read or written by `build_default_Identifiers` is
present. -/
structure UiElement where
  url : Option String
  tag_name : String
  id : Option String
  name : Option String
  class_names : Option (List String)
  type_attr : Option String
  role : Option String
  aria_label : Option String
  placeholder : Option String
  title : Option String
  href : Option String
  src : Option String
  value : Option String
  attributes : Option (List (String × String))
  text : Option String
  Identifiers : Option (List Identifier)
  css_path : Option String
  xpath : Option String
deriving DecidableEq, Repr

/-- The `id` locator appended at lines 144-152. -/
def idIdentifiers (e : UiElement) : List Identifier :=
  if truthyS e.id then
    [⟨IdentifierType.id, e.id.getD "", some (priorityOf IdentifierType.id),
      some "Locate by DOM id"⟩]
  else []

/-- The `name` locator appended at lines 155-163. -/
def nameIdentifiers (e : UiElement) : List Identifier :=
  if truthyS e.name then
    [⟨IdentifierType.name, e.name.getD "", some (priorityOf IdentifierType.name),
      some "Locate by name attribute"⟩]
  else []

/-- The placeholder CSS locator appended at lines 166-174. -/
def placeholderIdentifiers (e : UiElement) : List Identifier :=
  if truthyS e.placeholder then
    [⟨IdentifierType.css,
      pyLower e.tag_name ++ "[placeholder=\"" ++ e.placeholder.getD "" ++ "\"]",
      some (priorityOf IdentifierType.css), some "Locate by placeholder"⟩]
  else []

/-- The `role` locator appended at lines 177-185. -/
def roleIdentifiers (e : UiElement) : List Identifier :=
  if truthyS e.role then
    [⟨IdentifierType.role, e.role.getD "", some (priorityOf IdentifierType.role),
      some ("Locate by role=" ++ e.role.getD "")⟩]
  else []

/-- The `text` locator appended at lines 188-198: the text is stripped and
used only when the stripped snippet is non-empty. -/
def textIdentifiers (e : UiElement) : List Identifier :=
  if truthyS e.text then
    let snippet := pyStrip (e.text.getD "")
    if snippet = "" then []
    else
      [⟨IdentifierType.text, snippet, some (priorityOf IdentifierType.text),
        some "Locate by text content"⟩]
  else []

/-- The recorded-CSS-path locator appended at lines 201-209. -/
def cssPathIdentifiers (e : UiElement) : List Identifier :=
  if truthyS e.css_path then
    [⟨IdentifierType.css, e.css_path.getD "", some (priorityOf IdentifierType.css),
      some "Recorded CSS path"⟩]
  else []

/-- The full-XPath locator appended at lines 210-218. -/
def xpathIdentifiers (e : UiElement) : List Identifier :=
  if truthyS e.xpath then
    [⟨IdentifierType.xpath, e.xpath.getD "", some (priorityOf IdentifierType.xpath),
      some "Full XPath (last resort)"⟩]
  else []

/-- The stable-class filter of the fallback branch (lines 224-229). -/
def stableClasses (cs : List String) : List String :=
  cs.filter (fun c =>
    !(pyStartsWith c "sc-") && !(pyStartsWith c "css-") &&
    (!(pyIsAlnum c) || c.length < 10))

/-- The fallback single-class CSS locator (lines 221-241), appended only when
no other locator was produced.  An empty `class_names` list yields no stable
class, so the separate Python truthiness test on `class_names` is subsumed. -/
def fallbackIdentifiers (e : UiElement) : List Identifier :=
  match stableClasses (e.class_names.getD []) with
  | [] => []
  | c :: _ =>
      [⟨IdentifierType.css, "." ++ c, some (priorityOf IdentifierType.css),
        some "Fallback by single stable-looking class"⟩]

/-- The locators appended by the main body of `build_default_Identifiers`, in
source order. -/
def mainIdentifiers (e : UiElement) : List Identifier :=
  idIdentifiers e ++ nameIdentifiers e ++ placeholderIdentifiers e ++
    roleIdentifiers e ++ textIdentifiers e ++ cssPathIdentifiers e ++
    xpathIdentifiers e

/-- The full locator list `build_default_Identifiers` stores: the fallback
class locator is consulted only when the main body appended nothing. -/
def builtIdentifiers (e : UiElement) : List Identifier :=
  match mainIdentifiers e with
  | [] => fallbackIdentifiers e
  | l => l

/-- Embedding of `UiElement.build_default_Identifiers` (lines 125-244) as a state
transformer.  `Identifiers = None` is replaced by `[]` and the build proceeds;
a non-empty `Identifiers` list returns the element unchanged (`elif
self.Identifiers: return`); an empty list proceeds.  Proceeding normalizes
`attributes` and `class_names` to empty containers and stores the built
locator list. -/
def buildDefaultIdentifiers (e : UiElement) : UiElement :=
  match e.Identifiers with
  | some ids =>
      if ids.isEmpty then
        { e with attributes := some (e.attributes.getD [])
                 class_names := some (e.class_names.getD [])
                 Identifiers := some (builtIdentifiers e) }
      else e
  | none =>
      { e with attributes := some (e.attributes.getD [])
               class_names := some (e.class_names.getD [])
               Identifiers := some (builtIdentifiers e) }

/-! ## Event broadcaster (`async_cdp/event_broadcaster.py`) -/

/-- A CDP event model delivered to the broadcaster (opaque payload). -/
structure BaseCDPEvent where
  payload : String
deriving DecidableEq, Repr

/-- The state of `EventBroadcaster`: session identity, the per-category event
counters `_event_counts` (a total map, absent categories count 0), and the
`_shutdown` flag. -/
structure BroadcasterState where
  session_id : String
  session_start_dtm : String
  event_counts : String → Nat
  shutdown : Bool

/-- Python `self._event_counts[category] = self._event_counts.get(category, 0) + 1`. -/
def bumpCount (counts : String → Nat) (category : String) : String → Nat :=
  fun c => if c = category then counts category + 1 else counts c

/-- Embedding of `EventBroadcaster._handle_event` (lines 59-87).  The host callback is an
`Except`-valued function: `Except.error` models the callback raising.  The
`try/except` around the callback catches and logs the exception, so the
result of the function itself is an `Except` that is `ok` in both branches — an
`error` result would model an exception escaping `_handle_event`. -/
def handleEvent (st : BroadcasterState)
    (cb : Option (String → String → String → BaseCDPEvent → Except String Unit))
    (category : String) (detail : BaseCDPEvent) :
    Except String BroadcasterState :=
  if st.shutdown then Except.ok st
  else
    let st1 := { st with event_counts := bumpCount st.event_counts category }
    match cb with
    | none => Except.ok st1
    | some f =>
        match f st.session_id st.session_start_dtm category detail with
        | Except.ok _ => Except.ok st1
        | Except.error _ => Except.ok st1

/-! ## Theorems: window-property history (C1, C2) -/

theorem stepValues_chain' {vals : List WPEntry} (v : JsVal) (ts : Nat) (url : String)
    (h : vals.Chain' (fun a b => a.value ≠ b.value)) :
    (stepValues vals v ts url).Chain' (fun a b => a.value ≠ b.value) := by
  unfold stepValues
  cases hlast : vals.getLast? with
  | none => simp
  | some last =>
    dsimp only
    by_cases hv : last.value = v
    · simpa [hv] using h
    · rw [if_neg hv, List.chain'_append]
      refine ⟨h, List.chain'_singleton _, ?_⟩
      intro x hx y hy
      rw [hlast] at hx
      simp only [Option.mem_def, Option.some.injEq] at hx
      simp only [List.head?_cons, Option.mem_def, Option.some.injEq] at hy
      subst hx; subst hy
      exact hv

theorem tombValues_chain' {vals : List WPEntry} (ts : Nat) (url : String)
    (h : vals.Chain' (fun a b => a.value ≠ b.value)) :
    (tombValues vals ts url).Chain' (fun a b => a.value ≠ b.value) := by
  unfold tombValues
  cases hlast : vals.getLast? with
  | none => exact h
  | some last =>
    dsimp only
    by_cases hv : last.value = JsVal.null
    · simpa [hv] using h
    · rw [if_neg hv, List.chain'_append]
      refine ⟨h, List.chain'_singleton _, ?_⟩
      intro x hx y hy
      rw [hlast] at hx
      simp only [Option.mem_def, Option.some.injEq] at hx
      simp only [List.head?_cons, Option.mem_def, Option.some.injEq] at hy
      subst hx; subst hy
      exact hv

theorem applySnapshot_chain' (snap : List (String × JsVal)) (ts : Nat) (url : String)
    (p : String) :
    ∀ hdb : String → List WPEntry,
      (hdb p).Chain' (fun a b => a.value ≠ b.value) →
      (applySnapshot hdb snap ts url p).Chain' (fun a b => a.value ≠ b.value) := by
  induction snap with
  | nil => intro hdb h; exact h
  | cons kv rest ih =>
    intro hdb h
    rw [applySnapshot, List.foldl_cons]
    refine ih _ ?_
    by_cases hk : p = kv.1
    · subst hk
      simp only [if_pos rfl]
      exact stepValues_chain' _ _ _ h
    · simp only [if_neg hk]
      exact h

theorem applyTombstones_chain' (lastSeen currentKeys : List String) (ts : Nat)
    (url : String) (p : String) :
    ∀ hdb : String → List WPEntry,
      (hdb p).Chain' (fun a b => a.value ≠ b.value) →
      (applyTombstones hdb lastSeen currentKeys ts url p).Chain'
        (fun a b => a.value ≠ b.value) := by
  induction lastSeen with
  | nil => intro hdb h; exact h
  | cons k rest ih =>
    intro hdb h
    rw [applyTombstones, List.foldl_cons]
    refine ih _ ?_
    by_cases hc : k ∈ currentKeys
    · simp only [if_pos hc]
      exact h
    · simp only [if_neg hc]
      by_cases hk : p = k
      · subst hk
        simp only [if_pos rfl]
        exact tombValues_chain' _ _ h
      · simp only [if_neg hk]
        exact h

/-- C1: for every window-property path `p` tracked by the Window-Property
Monitor, after any sequence of collection cycles the history list
`history_db[p].values` contains no two consecutive entries with equal `value`:
a new entry is appended for an existing path only when the freshly collected
value differs from the value of the current last entry. -/
theorem c1_no_consecutive_equal_values (st : WPState) (h : WPReachable st)
    (p : String) :
    (st.history_db p).Chain' (fun a b => a.value ≠ b.value) := by
  induction h with
  | init => simp [wpInit]
  | step st snap ts url hkeys hr ih =>
    exact applyTombstones_chain' _ _ _ _ _ _
      (applySnapshot_chain' _ _ _ _ _ ih)

theorem c1_witness :
    ((collectStep (collectStep wpInit [("appKey", JsVal.str "one")] 1 "u1")
        [("appKey", JsVal.str "two")] 2 "u2").history_db "appKey").Chain'
      (fun a b => a.value ≠ b.value) :=
  c1_no_consecutive_equal_values _
    (WPReachable.step _ _ _ _ (by decide)
      (WPReachable.step _ _ _ _ (by decide) WPReachable.init)) "appKey"

theorem applySnapshot_eq_of_not_mem (snap : List (String × JsVal)) (ts : Nat)
    (url : String) (p : String) (hp : p ∉ snap.map Prod.fst) :
    ∀ hdb : String → List WPEntry, applySnapshot hdb snap ts url p = hdb p := by
  induction snap with
  | nil => intro hdb; rfl
  | cons kv rest ih =>
    intro hdb
    simp only [List.map_cons, List.mem_cons, not_or] at hp
    rw [applySnapshot, List.foldl_cons]
    rw [show List.foldl _ _ rest = applySnapshot _ rest ts url from rfl]
    rw [ih hp.2]
    simp only [if_neg hp.1]

theorem applyTombstones_eq_of_not_mem (lastSeen currentKeys : List String)
    (ts : Nat) (url : String) (p : String) (hp : p ∉ lastSeen) :
    ∀ hdb : String → List WPEntry,
      applyTombstones hdb lastSeen currentKeys ts url p = hdb p := by
  induction lastSeen with
  | nil => intro hdb; rfl
  | cons k rest ih =>
    intro hdb
    simp only [List.mem_cons, not_or] at hp
    rw [applyTombstones, List.foldl_cons]
    rw [show List.foldl _ _ rest = applyTombstones _ rest currentKeys ts url from rfl]
    rw [ih hp.2]
    by_cases hc : k ∈ currentKeys
    · simp only [if_pos hc]
    · simp only [if_neg hc, if_neg hp.1]

theorem applyTombstones_eq_of_mem (lastSeen currentKeys : List String)
    (ts : Nat) (url : String) (p : String) (hnd : lastSeen.Nodup)
    (hp : p ∈ lastSeen) (hc : p ∉ currentKeys) :
    ∀ hdb : String → List WPEntry,
      applyTombstones hdb lastSeen currentKeys ts url p =
        tombValues (hdb p) ts url := by
  induction lastSeen with
  | nil => cases hp
  | cons k rest ih =>
    intro hdb
    rw [List.nodup_cons] at hnd
    rw [applyTombstones, List.foldl_cons]
    rw [show List.foldl _ _ rest = applyTombstones _ rest currentKeys ts url from rfl]
    by_cases hk : p = k
    · subst hk
      rw [applyTombstones_eq_of_not_mem rest currentKeys ts url p hnd.1]
      simp [hc]
    · rcases List.mem_cons.mp hp with h | h
      · exact absurd h hk
      · rw [ih hnd.2 h]
        by_cases hkc : k ∈ currentKeys
        · simp only [if_pos hkc]
        · simp only [if_neg hkc, if_neg hk]

/-- C2: if a path `p` was in the key set of the previous collection
(`last_seen_keys`) but is absent from the new flat snapshot, and the last
entry of `history_db[p]` has a non-null value, then exactly one tombstone
entry with `value = null` is appended to `history_db[p]` during that
collection; if the value of the last entry is already null, no entry is appended
for `p`. -/
theorem c2_tombstone_exactly_once (st : WPState) (snap : List (String × JsVal))
    (ts : Nat) (url : String) (p : String)
    (hnd : st.last_seen_keys.Nodup)
    (hprev : p ∈ st.last_seen_keys)
    (habsent : p ∉ snap.map Prod.fst) :
    (∀ last : WPEntry, (st.history_db p).getLast? = some last →
      last.value ≠ JsVal.null →
      (collectStep st snap ts url).history_db p =
        st.history_db p ++ [⟨ts, JsVal.null, url⟩])
    ∧ (∀ last : WPEntry, (st.history_db p).getLast? = some last →
        last.value = JsVal.null →
        (collectStep st snap ts url).history_db p = st.history_db p) := by
  have hbase : (collectStep st snap ts url).history_db p =
      tombValues (st.history_db p) ts url := by
    rw [collectStep]
    dsimp only
    rw [applyTombstones_eq_of_mem _ _ _ _ _ hnd hprev habsent,
      applySnapshot_eq_of_not_mem _ _ _ _ habsent]
  constructor
  · intro last hlast hne
    rw [hbase, tombValues, hlast]
    simp only [if_neg hne]
  · intro last hlast hnull
    rw [hbase, tombValues, hlast]
    simp only [if_pos hnull]

theorem c2_witness :
    (collectStep (collectStep wpInit [("appKey", JsVal.str "one")] 1 "u1")
        [] 5 "u2").history_db "appKey" =
      (collectStep wpInit [("appKey", JsVal.str "one")] 1 "u1").history_db "appKey"
        ++ [⟨5, JsVal.null, "u2"⟩] :=
  (c2_tombstone_exactly_once
      (collectStep wpInit [("appKey", JsVal.str "one")] 1 "u1") [] 5 "u2" "appKey"
      (by decide) (by decide) (by decide)).1
    ⟨1, JsVal.str "one", "u1"⟩ (by decide) (by decide)

/-! ## Theorems: the recursive walk terminates (C3) -/

theorem walkProps_isSome
    (rc : Nat → String → List (String × JsVal) → Option (List (String × JsVal)))
    (abort : Bool) (depth : Nat) (base : String)
    (hrc : ∀ nid path f, (rc nid path f).isSome = true) :
    ∀ (props : List JsPropDesc) (flat : List (String × JsVal)),
      (walkProps rc abort depth base props flat).isSome = true := by
  intro props
  induction props with
  | nil => intro flat; simp [walkProps]
  | cons p rest ihp =>
    intro flat
    rw [walkProps]
    split
    · simp
    · dsimp only
      repeat' split
      all_goals try exact ihp _
      all_goals try simp
      all_goals
        rename_i heq
        exact absurd (hrc _ _ _) (by rw [heq]; simp)

theorem resolveFlat_isSome (g : Nat → List JsPropDesc) (abort : Bool) :
    ∀ fuel, ∀ depth oid base flat visited maxDepth,
      maxDepth + 2 ≤ fuel + depth → 1 ≤ fuel →
      (resolveFlat g abort fuel oid base flat visited depth maxDepth).isSome = true := by
  intro fuel
  induction fuel with
  | zero =>
    intro depth oid base flat visited maxDepth h1 h2
    exact absurd h2 (by omega)
  | succ fuel ih =>
    intro depth oid base flat visited maxDepth h1 h2
    rw [resolveFlat]
    split
    · simp
    · split
      · simp
      · rename_i hguard
        rw [not_or] at hguard
        have hdep : depth ≤ maxDepth := by
          rcases Nat.lt_or_ge maxDepth depth with h | h
          · exact absurd h hguard.1
          · exact h
        exact walkProps_isSome _ abort depth base
          (fun nid path f => ih (depth + 1) nid path f (oid :: visited) maxDepth
            (by omega) (by omega))
          (g oid) flat

/-- C3: the recursive property walk `_fully_resolve_object_flat` terminates on
every input, including cyclic object graphs: recursion never proceeds past
depth `max_depth` (default 10), and an `objectId` already contained in the
visited set carried along the current recursion is never resolved a second
time.  Termination is expressed by fuel-indifference: any fuel of at least
`maxDepth + 2` (one unit per recursion level, and the entry level) already
yields a result (`isSome`), for every object graph `g`, so the Python
recursion depth is bounded by `maxDepth + 1`; past `max_depth`, or on a
visited `objectId`, the call returns the flat dictionary untouched without
resolving anything. -/
theorem c3_walk_terminates (g : Nat → List JsPropDesc) (abort : Bool)
    (oid : Nat) (base : String) (flat : List (String × JsVal))
    (visited : List Nat) (maxDepth : Nat) :
    (∀ fuel, maxDepth + 2 ≤ fuel →
      (resolveFlat g abort fuel oid base flat visited 0 maxDepth).isSome = true)
    ∧ (∀ fuel depth, maxDepth < depth →
        resolveFlat g abort (fuel + 1) oid base flat visited depth maxDepth =
          some flat)
    ∧ (∀ fuel depth, oid ∈ visited →
        resolveFlat g abort (fuel + 1) oid base flat visited depth maxDepth =
          some flat) := by
  refine ⟨?_, ?_, ?_⟩
  · intro fuel hfuel
    exact resolveFlat_isSome g abort fuel 0 oid base flat visited maxDepth
      (by omega) (by omega)
  · intro fuel depth hdepth
    rw [resolveFlat]
    split
    · rfl
    · rw [if_pos (Or.inl hdepth)]
  · intro fuel depth hvis
    rw [resolveFlat]
    split
    · rfl
    · rw [if_pos (Or.inr hvis)]

/-- A two-node cyclic object graph: the application property `appA` of object 0
points at object 1, whose property `appB` points back at object 0. -/
def gCyclic : Nat → List JsPropDesc := fun n =>
  if n = 0 then [⟨"appA", "object", "Object", false, some 1, JsVal.null⟩]
  else if n = 1 then
    [⟨"appB", "object", "Object", false, some 0, JsVal.null⟩,
     ⟨"leaf", "string", "", false, none, JsVal.str "v"⟩]
  else []

theorem c3_witness :
    (resolveFlat gCyclic false 12 0 "store" [] [] 0 10).isSome = true
    ∧ resolveFlat gCyclic false 3 5 "store" [] [0, 5] 4 10 = some [] :=
  ⟨(c3_walk_terminates gCyclic false 0 "store" [] [] 10).1 12 (by decide),
   (c3_walk_terminates gCyclic false 5 "store" [] [0, 5] 10).2.2 2 4
     (by decide)⟩

/-! ## Theorems: scheduling and readiness (C4, C5, C6) -/

/-- C4, counterexample: the claim says a window-property collection is
permitted only after the first `Page.loadEventFired` or
`Page.domContentEventFired` has been observed; but from the initial state
(where neither load event has ever been observed and `page_ready` is false) a
single `Page.frameNavigated` message already sets `page_ready` and starts a
collection thread (lines 114-125 of `window_property_monitor.py`). -/
theorem c4_counterexample :
    initMonState.page_ready = false
    ∧ (handleMessage initMonState CdpEvent.frameNavigated).triggered = true
    ∧ (handleMessage initMonState CdpEvent.frameNavigated).state.page_ready = true := by
  decide

/-- C4, amended: a collection via the periodic path is permitted only while
the readiness flag is set — `check_and_collect` starts no collection and
leaves the state unchanged while `page_ready` is false,
`Runtime.executionContextsCleared` resets `page_ready` to false, and the load
events (`Page.loadEventFired`, `Page.domContentEventFired`) set it to true, as
does `Page.frameNavigated`. -/
theorem c4_readiness_gate :
    (∀ st now, st.page_ready = false → checkAndCollect st now = (st, false))
    ∧ (∀ st, (handleMessage st CdpEvent.executionContextsCleared).state.page_ready = false)
    ∧ (∀ st, (handleMessage st CdpEvent.loadEventFired).state.page_ready = true)
    ∧ (∀ st, (handleMessage st CdpEvent.domContentEventFired).state.page_ready = true)
    ∧ (∀ st, (handleMessage st CdpEvent.frameNavigated).state.page_ready = true) := by
  refine ⟨?_, ?_, ?_, ?_, ?_⟩
  · intro st now h
    rw [checkAndCollect, if_pos h]
  · intro st
    cases h : st.collectionAlive <;>
      simp [handleMessage, h]
  · intro st
    cases h : st.collectionAlive <;>
      simp [handleMessage, triggerCollection, h]
  · intro st
    cases h : st.collectionAlive <;>
      simp [handleMessage, triggerCollection, h]
  · intro st
    cases h : st.collectionAlive <;>
      simp [handleMessage, triggerCollection, h]

theorem c4_witness :
    checkAndCollect initMonState 99 = (initMonState, false) :=
  c4_readiness_gate.1 initMonState 99 rfl

/-- C5: if a navigation event (`Page.frameNavigated`, `Page.loadEventFired`,
`Page.domContentEventFired`) or `Runtime.executionContextsCleared` is observed
while a collection is in flight, the pending-navigation flag is set; when the
in-flight collection ends, the abort flag is cleared, and if the
pending-navigation flag is set, it is cleared and a fresh collection is
triggered (after a brief settling delay). -/
theorem c5_pending_navigation (st : MonState) :
    (st.collectionAlive = true →
      (handleMessage st CdpEvent.executionContextsCleared).state.pending_navigation = true
      ∧ (handleMessage st CdpEvent.frameNavigated).state.pending_navigation = true
      ∧ (handleMessage st CdpEvent.domContentEventFired).state.pending_navigation = true
      ∧ (handleMessage st CdpEvent.loadEventFired).state.pending_navigation = true)
    ∧ (collectionFinish st).1.abort_collection = false
    ∧ (st.pending_navigation = true →
        (collectionFinish st).1.pending_navigation = false
        ∧ (collectionFinish st).2 = true) := by
  refine ⟨?_, ?_, ?_⟩
  · intro h
    refine ⟨?_, ?_, ?_, ?_⟩ <;> simp [handleMessage, h]
  · rcases h : st.pending_navigation <;>
      simp [collectionFinish, triggerCollection, h]
  · intro h
    simp [collectionFinish, triggerCollection, h]

/-- A state with a collection thread in flight. -/
def aliveMonState : MonState := { initMonState with collectionAlive := true }

/-- A state with a collection in flight and a navigation already pending. -/
def alivePendingMonState : MonState :=
  { initMonState with collectionAlive := true, pending_navigation := true }

theorem c5_witness :
    (handleMessage aliveMonState CdpEvent.loadEventFired).state.pending_navigation = true
    ∧ (collectionFinish alivePendingMonState).1.pending_navigation = false
    ∧ (collectionFinish alivePendingMonState).2 = true :=
  ⟨((c5_pending_navigation aliveMonState).1 rfl).2.2.2,
   ((c5_pending_navigation alivePendingMonState).2.2 rfl).1,
   ((c5_pending_navigation alivePendingMonState).2.2 rfl).2⟩

/-- C6: at most one window-property collection is in flight at any time —
`_trigger_collection_thread` (also when reached through `force_collect`)
returns without starting a new collection thread while the current collection
thread is alive, and `check_and_collect` returns without triggering (and
without touching the state) while a collection is running. -/
theorem c6_single_flight (st : MonState) (halive : st.collectionAlive = true) :
    triggerCollection st = (st, false)
    ∧ forceCollect st = (st, false)
    ∧ (∀ now, checkAndCollect st now = (st, false)) := by
  have htr : triggerCollection st = (st, false) := by
    rw [triggerCollection, if_pos halive]
  refine ⟨htr, htr, ?_⟩
  intro now
  rw [checkAndCollect]
  rcases h : st.page_ready with _ | _
  · rw [if_pos rfl]
  · rw [if_neg (by simp [h]), if_pos halive]

theorem c6_witness :
    triggerCollection aliveMonState = (aliveMonState, false)
    ∧ checkAndCollect aliveMonState 42 = (aliveMonState, false) :=
  ⟨(c6_single_flight aliveMonState rfl).1,
   (c6_single_flight aliveMonState rfl).2.2 42⟩

/-! ## Theorems: native vs application classification (C7) -/

/-- C7, counterexample: a property descriptor whose `className` is `"Object"`
and whose `name` is the empty string (JavaScript allows `window[""] = ...`)
survives every blacklist the claim lists — no `NATIVE_PREFIXES` entry prefixes
`"Object"`, the empty name starts with none of the native name prefixes and is
not among the native globals — yet `_is_application_object` returns `False`
for it, because of the initial `if not name` guard. -/
theorem c7_counterexample :
    isApplicationObject "Object" "" = false
    ∧ NATIVE_PREFIXES.any (fun p => pyStartsWith "Object" p) = false
    ∧ nameNativeStarts.any (fun p => pyStartsWith "" p) = false
    ∧ "" ∉ native_globals := by
  refine ⟨by decide, by decide, by decide, by decide⟩

/-- C7, amended: `_is_application_object(className, name)` returns native
(`False`) whenever `className` starts with one of the fixed native prefixes,
or the name starts with one of `HTML`/`SVG`/`RTC`/`IDB`/`WebGL`/`Media`/
`Audio`/`Video`, or the name is in the fixed list of native global built-ins;
and it returns application (`True`) for every entry with a non-empty name
surviving those blacklists whose `className` is `"Object"` or empty. -/
theorem c7_classifier :
    (∀ className name,
        (NATIVE_PREFIXES.any (fun p => pyStartsWith className p) = true
          ∨ nameNativeStarts.any (fun p => pyStartsWith name p) = true
          ∨ name ∈ native_globals) →
        isApplicationObject className name = false)
    ∧ (∀ className name, name ≠ "" →
        NATIVE_PREFIXES.any (fun p => pyStartsWith className p) = false →
        nameNativeStarts.any (fun p => pyStartsWith name p) = false →
        name ∉ native_globals →
        (className = "Object" ∨ className = "") →
        isApplicationObject className name = true) := by
  constructor
  · intro className name hbl
    by_cases hn : name = ""
    · simp [isApplicationObject, hn]
    · rcases hbl with h | h | h
      · have hcn : className ≠ "" := by
          intro hc
          subst hc
          rw [show NATIVE_PREFIXES.any (fun p => pyStartsWith "" p) = false
            from by decide] at h
          cases h
        rw [isApplicationObject, if_neg hn, if_pos ⟨hcn, h⟩]
      · rw [isApplicationObject, if_neg hn]
        by_cases hc : className ≠ "" ∧
            NATIVE_PREFIXES.any (fun p => pyStartsWith className p) = true
        · rw [if_pos hc]
        · rw [if_neg hc, if_pos h]
      · rw [isApplicationObject, if_neg hn]
        by_cases hc : className ≠ "" ∧
            NATIVE_PREFIXES.any (fun p => pyStartsWith className p) = true
        · rw [if_pos hc]
        · rw [if_neg hc]
          by_cases hp : nameNativeStarts.any (fun p => pyStartsWith name p) = true
          · rw [if_pos hp]
          · rw [if_neg hp, if_pos h]
  · intro className name hn h1 h2 h3 h4
    rw [isApplicationObject, if_neg hn,
      if_neg (by simp [h1]), if_neg (by simp [h2]), if_neg h3, if_pos h4]

theorem c7_witness :
    isApplicationObject "ArrayBuffer" "x" = false
    ∧ isApplicationObject "Object" "myAppState" = true :=
  ⟨c7_classifier.1 "ArrayBuffer" "x" (Or.inl (by decide)),
   c7_classifier.2 "Object" "myAppState" (by decide) (by decide) (by decide)
     (by decide) (Or.inl rfl)⟩

/-! ## Theorems: UI element locator priorities (C8, C10) -/

/-- An element with `text` and a recorded `css_path` and nothing else. -/
def textCssElem : UiElement :=
  { url := none, tag_name := "a", id := none, name := none, class_names := none,
    type_attr := none, role := none, aria_label := none, placeholder := none,
    title := none, href := none, src := none, value := none, attributes := none,
    text := some "x", Identifiers := none, css_path := some "div", xpath := none }

/-- C8, counterexample: `build_default_Identifiers` appends the recorded CSS
path locator (priority 30) after the text locator (priority 50), so for an
element carrying `text` and `css_path` the produced list has priorities
`[50, 30]` — not ordered by non-decreasing priority. -/
theorem c8_counterexample :
    ((buildDefaultIdentifiers textCssElem).Identifiers.getD []).map
        Identifier.get_priority = [50, 30]
    ∧ ¬ (((buildDefaultIdentifiers textCssElem).Identifiers.getD []).map
        Identifier.get_priority).Chain' (fun a b => a ≤ b) := by
  have h : ((buildDefaultIdentifiers textCssElem).Identifiers.getD []).map
      Identifier.get_priority = [50, 30] := by decide
  refine ⟨h, ?_⟩
  rw [h, List.chain'_cons]
  intro hch
  exact absurd hch.1 (by norm_num)

theorem chain'_le_fallback (e : UiElement) :
    ((fallbackIdentifiers e).map Identifier.get_priority).Chain'
      (fun a b => a ≤ b) := by
  rw [fallbackIdentifiers]
  cases stableClasses (e.class_names.getD []) <;> simp

theorem chain'_le_main_no_css (e : UiElement)
    (hcss : truthyS e.css_path = false) :
    ((mainIdentifiers e).map Identifier.get_priority).Chain'
      (fun a b => a ≤ b) := by
  have h6 : cssPathIdentifiers e = [] := by
    rw [cssPathIdentifiers, hcss]
    simp
  rw [mainIdentifiers, h6]
  by_cases h1 : truthyS e.id = true <;>
  by_cases h2 : truthyS e.name = true <;>
  by_cases h3 : truthyS e.placeholder = true <;>
  by_cases h4 : truthyS e.role = true <;>
  by_cases h5 : truthyS e.text = true <;>
  by_cases h5b : pyStrip (e.text.getD "") = "" <;>
  by_cases h7 : truthyS e.xpath = true <;>
  simp [idIdentifiers, nameIdentifiers, placeholderIdentifiers,
    roleIdentifiers, textIdentifiers, xpathIdentifiers,
    h1, h2, h3, h4, h5, h5b, h7, Identifier.get_priority, priorityOf,
    priorityGet, DEFAULT_IDENTIFIER_PRIORITIES, List.find?]

/-- The button element of scenario 6: id `buy`, text `Buy now`, nothing else. -/
def buyButtonElem : UiElement :=
  { url := none, tag_name := "button", id := some "buy", name := none,
    class_names := none, type_attr := none, role := none, aria_label := none,
    placeholder := none, title := none, href := none, src := none,
    value := none, attributes := none, text := some "Buy now",
    Identifiers := none, css_path := none, xpath := none }

/-- C8, amended: `build_default_Identifiers` assigns the default priorities
id=10, name=20, CSS=30, role=40, text=50, xpath=80; the locator list it
produces is ordered by non-decreasing priority whenever the element carries no
recorded `css_path` (the recorded-CSS-path locator, priority 30, is appended
after the role and text locators, which breaks the ordering otherwise); in
particular, for an element having id `buy` and trimmed text `Buy now` (and no
name, placeholder, or role), the list begins with the id locator at priority
10 followed by the text locator at priority 50. -/
theorem c8_locator_priorities :
    (priorityOf IdentifierType.id = 10 ∧ priorityOf IdentifierType.name = 20
      ∧ priorityOf IdentifierType.css = 30 ∧ priorityOf IdentifierType.role = 40
      ∧ priorityOf IdentifierType.text = 50
      ∧ priorityOf IdentifierType.xpath = 80)
    ∧ (∀ e : UiElement, truthyS e.css_path = false →
        ((builtIdentifiers e).map Identifier.get_priority).Chain'
          (fun a b => a ≤ b))
    ∧ (buildDefaultIdentifiers buyButtonElem).Identifiers =
        some [⟨IdentifierType.id, "buy", some 10, some "Locate by DOM id"⟩,
              ⟨IdentifierType.text, "Buy now", some 50,
                some "Locate by text content"⟩] := by
  refine ⟨by decide, ?_, by decide⟩
  intro e hcss
  rw [builtIdentifiers]
  cases hm : mainIdentifiers e with
  | nil => exact chain'_le_fallback e
  | cons i l =>
    dsimp only
    rw [← hm]
    exact chain'_le_main_no_css e hcss

theorem c8_witness :
    ((builtIdentifiers buyButtonElem).map Identifier.get_priority).Chain'
      (fun a b => a ≤ b) :=
  c8_locator_priorities.2.1 buyButtonElem rfl

/-! ## Theorems: callback errors are contained (C9) -/

/-- C9: if the host-supplied `on_event_callback` raises while
`EventBroadcaster._handle_event` delivers an event (and the broadcaster is not
shut down), the exception is caught and logged and never propagates to the
caller — the call still returns normally (`Except.ok`) — and the per-category
event count has still been incremented for that event. -/
theorem c9_callback_error_contained (st : BroadcasterState)
    (f : String → String → String → BaseCDPEvent → Except String Unit)
    (category : String) (detail : BaseCDPEvent) (err : String)
    (hs : st.shutdown = false)
    (hraise : f st.session_id st.session_start_dtm category detail =
      Except.error err) :
    handleEvent st (some f) category detail =
      Except.ok { st with event_counts := bumpCount st.event_counts category }
    ∧ bumpCount st.event_counts category category =
      st.event_counts category + 1 := by
  constructor
  · rw [handleEvent, if_neg (by simp [hs])]
    dsimp only
    rw [hraise]
  · rw [bumpCount]
    simp

/-- A host callback that always raises. -/
def raisingCallback : String → String → String → BaseCDPEvent → Except String Unit :=
  fun _ _ _ _ => Except.error "boom"

/-- A broadcaster freshly constructed by `EventBroadcaster.__init__`:
no events counted, not shut down. -/
def freshBroadcaster : BroadcasterState :=
  ⟨"sess-1", "2025-01-01T00-00-00Z", fun _ => 0, false⟩

theorem c9_witness :
    handleEvent freshBroadcaster (some raisingCallback) "AsyncNetworkMonitor"
        ⟨"evt"⟩ =
      Except.ok { freshBroadcaster with
        event_counts := bumpCount freshBroadcaster.event_counts "AsyncNetworkMonitor" }
    ∧ bumpCount freshBroadcaster.event_counts "AsyncNetworkMonitor"
        "AsyncNetworkMonitor" =
      freshBroadcaster.event_counts "AsyncNetworkMonitor" + 1 :=
  c9_callback_error_contained freshBroadcaster raisingCallback
    "AsyncNetworkMonitor" ⟨"evt"⟩ "boom" rfl rfl

/-! ## Theorems: locator building is idempotent (C10) -/

/-- C10: `build_default_Identifiers` is idempotent at the public interface:
whenever the `Identifiers` list of a `UiElement` is already non-empty, a call
returns immediately without modifying the element, so calling it a second
time after a first call that produced at least one locator leaves the
`Identifiers` list (and the whole element) unchanged. -/
theorem c10_build_idempotent :
    (∀ (e : UiElement) (ids : List Identifier),
      e.Identifiers = some ids → ids ≠ [] → buildDefaultIdentifiers e = e)
    ∧ (∀ (e : UiElement) (ids : List Identifier),
        (buildDefaultIdentifiers e).Identifiers = some ids → ids ≠ [] →
        buildDefaultIdentifiers (buildDefaultIdentifiers e) =
          buildDefaultIdentifiers e) := by
  have h1 : ∀ (e : UiElement) (ids : List Identifier),
      e.Identifiers = some ids → ids ≠ [] → buildDefaultIdentifiers e = e := by
    intro e ids h hne
    rw [buildDefaultIdentifiers, h]
    dsimp only
    rw [if_neg (by simp [List.isEmpty_iff, hne])]
  exact ⟨h1, fun e ids h hne => h1 _ ids h hne⟩

theorem c10_witness :
    buildDefaultIdentifiers (buildDefaultIdentifiers buyButtonElem) =
      buildDefaultIdentifiers buyButtonElem :=
  c10_build_idempotent.2 buyButtonElem
    [⟨IdentifierType.id, "buy", some 10, some "Locate by DOM id"⟩,
     ⟨IdentifierType.text, "Buy now", some 50, some "Locate by text content"⟩]
    (by decide) (by decide)
